import Mathlib

/-!
Shallow embedding of the `online_store` checkout views
(`src/online_store/products/views.py`, data model in
`src/online_store/products/models.py`).

Modelling choices:
* Django rows become Lean structures.  Nullable / blank fields
  (`amount_off`, `percent_off`, `stripe_coupon_id`, `stripe_tax_rate_id`)
  become `Option`; Python truthiness (`if discount.amount_off:`,
  `if not discount.stripe_coupon_id:`) is modelled by explicit truthiness
  functions: `None` and `0` / `""` are falsy.
* The Stripe SDK is modelled as a record of fallible calls
  (`StripeGateway`); each call either returns the created object's id or
  raises (`Except PyExc`).  The views log every remote call they perform
  (`StripeCall`), so call-counting claims (idempotence) are statable.
* `get_object_or_404` is modelled by a database lookup function
  `Nat → Option _`; a missing row raises `PyExc.http404`, which Django's
  middleware renders as a 404 response (`renderDjango`).
* An uncaught Python exception is an `Except.error` result of the view;
  the only caught exception is the one around
  `stripe.checkout.Session.create` (converted to `HttpResponseBadRequest`).
* `order.items.first()` on an empty item collection yields `None` in
  Django; reading `.currency` on it raises `AttributeError`.
-/

/-- The `Item` model (models.py lines 7-28): name, description,
price (`PositiveIntegerField`, so a `Nat`), currency.  `id` is the
implicit Django primary key. -/
structure Item where
  id : Nat
  name : String
  description : String
  price : Nat
  currency : String
deriving Repr, DecidableEq

/-- The `Discount` model (models.py lines 30-51). -/
structure Discount where
  name : String
  amount_off : Option Nat
  percent_off : Option Nat
  stripe_coupon_id : Option String
deriving Repr, DecidableEq

/-- The `Tax` model (models.py lines 59-76). -/
structure Tax where
  name : String
  percentage : Nat
  inclusive : Bool
  stripe_tax_rate_id : Option String
deriving Repr, DecidableEq

/-- The `Order` model (models.py lines 79-96).  The many-to-many `items`
collection is a list (Django returns rows in a definite order;
`first()` is the head).  `discount` and `tax` are nullable foreign keys. -/
structure Order where
  id : Nat
  items : List Item
  discount : Option Discount
  tax : Option Tax
  paid : Bool
deriving Repr, DecidableEq

/-- Python truthiness of a nullable string column: `None` and `""` are
falsy. -/
def truthyOptStr : Option String → Bool
  | none => false
  | some s => s != ""

/-- Python truthiness of a nullable non-negative integer column:
`None` and `0` are falsy. -/
def truthyOptNat : Option Nat → Bool
  | none => false
  | some n => n != 0

/-- Python exceptions that can escape or be caught in these views. -/
inductive PyExc where
  | http404
  | attributeError (msg : String)
  | stripeError (msg : String)
deriving Repr, DecidableEq

/-- Python str of the exception, used to build the "Stripe error: " body. -/
def PyExc.str : PyExc → String
  | http404 => "Http404"
  | attributeError m => m
  | stripeError m => m

/-- Keyword arguments of `stripe.Coupon.create` as passed at
views.py lines 133-142: `duration` always, and either
`amount_off` + `currency` or `percent_off` (absent kwargs are `none`). -/
structure CouponParams where
  duration : String
  amount_off : Option Nat
  percent_off : Option Nat
  currency : Option String
deriving Repr, DecidableEq

/-- Keyword arguments of `stripe.TaxRate.create`
(views.py lines 152-156). -/
structure TaxRateParams where
  display_name : String
  percentage : Nat
  inclusive : Bool
deriving Repr, DecidableEq

/-- The `price_data` dict of a line item (views.py lines 61-68 and
166-173): currency, product name and description, unit amount. -/
structure PriceData where
  currency : String
  name : String
  description : String
  unit_amount : Nat
deriving Repr, DecidableEq

/-- One line item: `price_data`, `quantity`, and the optional
`tax_rates` key added at views.py line 177. -/
structure LineItem where
  price_data : PriceData
  quantity : Nat
  tax_rates : Option (List String)
deriving Repr, DecidableEq

/-- Keyword arguments of `stripe.checkout.Session.create`
(views.py lines 57-75 and 183-189).  These five kwargs are the whole
request in both views: no coupon or discount parameter exists. -/
structure SessionParams where
  payment_method_types : List String
  line_items : List LineItem
  mode : String
  success_url : String
  cancel_url : String
deriving Repr, DecidableEq

/-- One remote call performed against Stripe, with its parameters. -/
inductive StripeCall where
  | couponCreate (p : CouponParams)
  | taxRateCreate (p : TaxRateParams)
  | sessionCreate (p : SessionParams)
deriving Repr, DecidableEq

/-- The Stripe SDK: each create call either returns the new object's
`id` or raises an arbitrary exception. -/
structure StripeGateway where
  createCoupon : CouponParams → Except PyExc String
  createTaxRate : TaxRateParams → Except PyExc String
  createSession : SessionParams → Except PyExc String

/-- HTTP responses the views can produce.  `jsonSessionId s` is
`JsonResponse({"session_id": s})`; `badRequest` is
`HttpResponseBadRequest`; `serverError` is what Django renders for an
uncaught non-404 exception. -/
inductive HttpResp where
  | notFound
  | badRequest (body : String)
  | jsonSessionId (session_id : String)
  | serverError
deriving Repr, DecidableEq

/-- Django's response handling around a view: an `Http404` becomes a
404 response, any other uncaught exception a generic server error. -/
def renderDjango : Except PyExc HttpResp → HttpResp
  | .ok r => r
  | .error .http404 => .notFound
  | .error _ => .serverError

/-- The coupon parameters the discount branch builds
(views.py lines 132-142).  When `amount_off` is truthy the currency is
read from `order.items.first().currency`, which raises
`AttributeError` when the collection is empty. -/
def couponParamsFor (order : Order) (discount : Discount) :
    Except PyExc CouponParams :=
  if truthyOptNat discount.amount_off then
    match order.items.head? with
    | none =>
        .error (.attributeError
          "NoneType object has no attribute currency")
    | some it =>
        .ok ⟨"once", discount.amount_off, none, some it.currency⟩
  else
    .ok ⟨"once", none, discount.percent_off, none⟩

/-- The discount block of `buy_order_view` (views.py lines 128-146):
if the order has a discount without a truthy `stripe_coupon_id`,
create a coupon and persist the returned id; exceptions are not
caught.  Returns the (possibly updated) order together with the remote
calls performed. -/
def discountStep (gw : StripeGateway) (order : Order) :
    Except PyExc Order × List StripeCall :=
  match order.discount with
  | none => (.ok order, [])
  | some discount =>
    if truthyOptStr discount.stripe_coupon_id then (.ok order, [])
    else
      match couponParamsFor order discount with
      | .error e => (.error e, [])
      | .ok p =>
        match gw.createCoupon p with
        | .error e => (.error e, [.couponCreate p])
        | .ok cid =>
          (.ok { order with
                  discount := some { discount with stripe_coupon_id := some cid } },
           [.couponCreate p])

/-- The tax block of `buy_order_view` (views.py lines 148-160):
if the order has a tax without a truthy `stripe_tax_rate_id`, create a
tax rate and persist the returned id; exceptions are not caught. -/
def taxStep (gw : StripeGateway) (order : Order) :
    Except PyExc Order × List StripeCall :=
  match order.tax with
  | none => (.ok order, [])
  | some tax =>
    if truthyOptStr tax.stripe_tax_rate_id then (.ok order, [])
    else
      let p : TaxRateParams := ⟨tax.name, tax.percentage, tax.inclusive⟩
      match gw.createTaxRate p with
      | .error e => (.error e, [.taxRateCreate p])
      | .ok tid =>
        (.ok { order with
                tax := some { tax with stripe_tax_rate_id := some tid } },
         [.taxRateCreate p])

/-- One line item of the order loop (views.py lines 164-179): full
description (no truncation here), `unit_amount = int(price * 100)`,
quantity 1, and `tax_rates` attached when
`order.tax and order.tax.stripe_tax_rate_id` is truthy. -/
def lineItemFor (order : Order) (item : Item) : LineItem :=
  let base : LineItem :=
    { price_data :=
        { currency := item.currency
          name := item.name
          description := item.description
          unit_amount := item.price * 100 }
      quantity := 1
      tax_rates := none }
  match order.tax with
  | none => base
  | some tax =>
    match tax.stripe_tax_rate_id with
    | none => base
    | some tid => if tid != "" then { base with tax_rates := some [tid] } else base

/-- The success redirect URL built in both views
(views.py lines 53 and 125). -/
def successUrlOf (origin : String) : String :=
  origin ++ "/success?session_id=\x7bCHECKOUT_SESSION_ID\x7d"

/-- Body of `buy_order_view` after the order lookup
(views.py lines 124-193).  Returns the view's result (an uncaught
exception or a response), the final state of the order's rows, and the
list of Stripe calls performed, in order. -/
def buy_order_core (gw : StripeGateway) (origin : String) (order : Order) :
    Except PyExc HttpResp × Order × List StripeCall :=
  let success_url := successUrlOf origin
  let cancel_url := origin ++ "/order/" ++ toString order.id ++ "/"
  match discountStep gw order with
  | (.error e, c1) => (.error e, order, c1)
  | (.ok o1, c1) =>
    match taxStep gw o1 with
    | (.error e, c2) => (.error e, o1, c1 ++ c2)
    | (.ok o2, c2) =>
      let line_items := o2.items.map (lineItemFor o2)
      let p : SessionParams := ⟨["card"], line_items, "payment", success_url, cancel_url⟩
      match gw.createSession p with
      | .error e =>
          (.ok (.badRequest ("Stripe error: " ++ e.str)), o2,
           c1 ++ c2 ++ [.sessionCreate p])
      | .ok sid =>
          (.ok (.jsonSessionId sid), o2, c1 ++ c2 ++ [.sessionCreate p])

/-- Outcome of an order-checkout request: result, final order row
state (`none` when the lookup failed), Stripe calls performed. -/
structure ViewOutcome where
  result : Except PyExc HttpResp
  finalOrder : Option Order
  calls : List StripeCall
deriving Repr

/-- The view `buy_order_view` (views.py lines 104-193): look up the order
(404 when absent), then run the checkout body. -/
def buy_order_view (gw : StripeGateway) (db : Nat → Option Order)
    (origin : String) (order_id : Nat) : ViewOutcome :=
  match db order_id with
  | none => ⟨.error .http404, none, []⟩
  | some order =>
    match buy_order_core gw origin order with
    | (r, o, cs) => ⟨r, some o, cs⟩

/-- The view `buy_view` (views.py lines 34-79): look up the item (404 when
absent), build one line item with the description truncated to 200
characters, request a payment-mode session; a session-creation
exception becomes `"Stripe error: " + str(e)` as a 400 response. -/
def buy_view (gw : StripeGateway) (db : Nat → Option Item)
    (origin : String) (item_id : Nat) :
    Except PyExc HttpResp × List StripeCall :=
  match db item_id with
  | none => (.error .http404, [])
  | some item =>
    let success_url := successUrlOf origin
    let cancel_url := origin ++ "/item/" ++ toString item.id ++ "/"
    let li : LineItem :=
      { price_data :=
          { currency := item.currency
            name := item.name
            description := item.description.take 200
            unit_amount := item.price * 100 }
        quantity := 1
        tax_rates := none }
    let p : SessionParams := ⟨["card"], [li], "payment", success_url, cancel_url⟩
    match gw.createSession p with
    | .error e => (.ok (.badRequest ("Stripe error: " ++ e.str)), [.sessionCreate p])
    | .ok sid => (.ok (.jsonSessionId sid), [.sessionCreate p])

/-- The coupon-creation calls among a call list. -/
def couponCalls (calls : List StripeCall) : List CouponParams :=
  calls.filterMap fun c =>
    match c with
    | .couponCreate p => some p
    | _ => none

/-- The tax-rate-creation calls among a call list. -/
def taxRateCalls (calls : List StripeCall) : List TaxRateParams :=
  calls.filterMap fun c =>
    match c with
    | .taxRateCreate p => some p
    | _ => none

/-- The session-creation calls among a call list. -/
def sessionCalls (calls : List StripeCall) : List SessionParams :=
  calls.filterMap fun c =>
    match c with
    | .sessionCreate p => some p
    | _ => none

/-- The session request `buy_order_view` sends once it reaches
views.py line 183: five kwargs, built from the origin, the order id in
the URL, and the order state `o2` as of line-item assembly.  There is
no coupon or discount kwarg. -/
def orderSessionParams (origin : String) (ordId : Nat) (o2 : Order) :
    SessionParams :=
  ⟨["card"], o2.items.map (lineItemFor o2), "payment", successUrlOf origin,
   origin ++ "/order/" ++ toString ordId ++ "/"⟩

/-- The session request `buy_view` sends (views.py lines 57-75): one
line item for the item, description truncated to 200 characters, unit
amount `price * 100`, quantity 1; five kwargs in total. -/
def itemSessionParams (origin : String) (item : Item) : SessionParams :=
  ⟨["card"],
   [{ price_data :=
        { currency := item.currency
          name := item.name
          description := item.description.take 200
          unit_amount := item.price * 100 }
      quantity := 1
      tax_rates := none }],
   "payment", successUrlOf origin,
   origin ++ "/item/" ++ toString item.id ++ "/"⟩

/-! ### Concrete fixtures, used to evaluate the theorems on real inputs -/

/-- A concrete catalog item. -/
def itMug : Item := ⟨1, "Mug", "A mug", 10, "USD"⟩

/-- A second concrete catalog item. -/
def itHat : Item := ⟨2, "Hat", "A hat", 5, "EUR"⟩

/-- An amount-based discount that is not yet materialized in Stripe. -/
def dAmt : Discount := ⟨"d", some 3, none, none⟩

/-- A percent-based discount that is not yet materialized in Stripe. -/
def dPct : Discount := ⟨"dp", none, some 10, none⟩

/-- A discount whose remote coupon id is already set. -/
def dDone : Discount := ⟨"d", some 3, none, some "cp_old"⟩

/-- A tax that is not yet materialized in Stripe. -/
def tVat : Tax := ⟨"vat", 20, true, none⟩

/-- A tax whose remote tax-rate id is already set. -/
def tDone : Tax := ⟨"vat", 20, true, some "txr_old"⟩

/-- A gateway on which every create call succeeds. -/
def gwOk : StripeGateway :=
  ⟨fun _ => .ok "cp_1", fun _ => .ok "txr_1", fun _ => .ok "cs_1"⟩

/-- A gateway on which session creation raises and the rest succeeds. -/
def gwSessFail : StripeGateway :=
  ⟨fun _ => .ok "cp_1", fun _ => .ok "txr_1",
   fun _ => .error (.stripeError "boom")⟩

/-- A gateway on which coupon creation raises and the rest succeeds. -/
def gwCouponFail : StripeGateway :=
  ⟨fun _ => .error (.stripeError "cfail"), fun _ => .ok "txr_1",
   fun _ => .ok "cs_1"⟩

/-- A gateway on which tax-rate creation raises and the rest succeeds. -/
def gwTaxFail : StripeGateway :=
  ⟨fun _ => .ok "cp_1", fun _ => .error (.stripeError "tfail"),
   fun _ => .ok "cs_1"⟩

/-- An order with a repeated item, an unmaterialized amount discount and
an unmaterialized tax. -/
def ordFresh : Order := ⟨7, [itMug, itHat, itMug], some dAmt, some tVat, false⟩

/-- An order with no items and an unmaterialized amount discount. -/
def ordEmpty : Order := ⟨8, [], some dAmt, none, false⟩

/-- An order whose discount and tax are already materialized. -/
def ordDone : Order := ⟨9, [itMug], some dDone, some tDone, true⟩

/-! ### Helper lemmas about the two materialization steps -/

/-- No discount on the order: the discount block does nothing. -/
theorem discountStep_no_discount (gw : StripeGateway) (order : Order)
    (h : order.discount = none) : discountStep gw order = (.ok order, []) := by
  simp [discountStep, h]

/-- Discount already materialized: the discount block does nothing. -/
theorem discountStep_materialized (gw : StripeGateway) (order : Order)
    (d : Discount) (h : order.discount = some d)
    (ht : truthyOptStr d.stripe_coupon_id = true) :
    discountStep gw order = (.ok order, []) := by
  simp [discountStep, h, ht]

/-- Unmaterialized discount, successful remote call: one coupon-create
call, and the returned id is persisted on the discount. -/
theorem discountStep_creates (gw : StripeGateway) (order : Order)
    (d : Discount) (p : CouponParams) (cid : String)
    (h : order.discount = some d)
    (ht : truthyOptStr d.stripe_coupon_id = false)
    (hp : couponParamsFor order d = .ok p)
    (hc : gw.createCoupon p = .ok cid) :
    discountStep gw order
      = (.ok { order with
                discount := some { d with stripe_coupon_id := some cid } },
         [.couponCreate p]) := by
  simp [discountStep, h, ht, hp, hc]

/-- Unmaterialized discount, failing remote call: the exception
escapes the block; the attempted call is the only one. -/
theorem discountStep_raises (gw : StripeGateway) (order : Order)
    (d : Discount) (p : CouponParams) (e : PyExc)
    (h : order.discount = some d)
    (ht : truthyOptStr d.stripe_coupon_id = false)
    (hp : couponParamsFor order d = .ok p)
    (hc : gw.createCoupon p = .error e) :
    discountStep gw order = (.error e, [.couponCreate p]) := by
  simp [discountStep, h, ht, hp, hc]

/-- Unmaterialized discount whose parameters cannot even be built
(empty item collection on the amount-off path): the exception escapes
with no remote call at all. -/
theorem discountStep_params_raise (gw : StripeGateway) (order : Order)
    (d : Discount) (e : PyExc)
    (h : order.discount = some d)
    (ht : truthyOptStr d.stripe_coupon_id = false)
    (hp : couponParamsFor order d = .error e) :
    discountStep gw order = (.error e, []) := by
  simp [discountStep, h, ht, hp]

/-- No tax on the order: the tax block does nothing. -/
theorem taxStep_no_tax (gw : StripeGateway) (order : Order)
    (h : order.tax = none) : taxStep gw order = (.ok order, []) := by
  simp [taxStep, h]

/-- Tax already materialized: the tax block does nothing. -/
theorem taxStep_materialized (gw : StripeGateway) (order : Order)
    (t : Tax) (h : order.tax = some t)
    (ht : truthyOptStr t.stripe_tax_rate_id = true) :
    taxStep gw order = (.ok order, []) := by
  simp [taxStep, h, ht]

/-- Unmaterialized tax, successful remote call: one tax-rate-create
call, and the returned id is persisted on the tax. -/
theorem taxStep_creates (gw : StripeGateway) (order : Order)
    (t : Tax) (tid : String)
    (h : order.tax = some t)
    (ht : truthyOptStr t.stripe_tax_rate_id = false)
    (hc : gw.createTaxRate ⟨t.name, t.percentage, t.inclusive⟩ = .ok tid) :
    taxStep gw order
      = (.ok { order with
                tax := some { t with stripe_tax_rate_id := some tid } },
         [.taxRateCreate ⟨t.name, t.percentage, t.inclusive⟩]) := by
  simp [taxStep, h, ht, hc]

/-- Unmaterialized tax, failing remote call: the exception escapes. -/
theorem taxStep_raises (gw : StripeGateway) (order : Order)
    (t : Tax) (e : PyExc)
    (h : order.tax = some t)
    (ht : truthyOptStr t.stripe_tax_rate_id = false)
    (hc : gw.createTaxRate ⟨t.name, t.percentage, t.inclusive⟩ = .error e) :
    taxStep gw order
      = (.error e, [.taxRateCreate ⟨t.name, t.percentage, t.inclusive⟩]) := by
  simp [taxStep, h, ht, hc]

/-- The discount block only ever writes the discount's
`stripe_coupon_id`: every other field of the order survives, and the
discount keeps its name and amounts. -/
theorem discountStep_ok_frame (gw : StripeGateway) (order o1 : Order)
    (c : List StripeCall) (h : discountStep gw order = (.ok o1, c)) :
    o1.id = order.id ∧ o1.items = order.items ∧ o1.tax = order.tax
      ∧ o1.paid = order.paid
      ∧ (order.discount = none → o1.discount = none)
      ∧ (∀ d, order.discount = some d →
          ∃ d', o1.discount = some d' ∧ d'.name = d.name
            ∧ d'.amount_off = d.amount_off ∧ d'.percent_off = d.percent_off) := by
  rcases hd : order.discount with _ | d
  · rw [discountStep_no_discount gw order hd] at h
    simp only [Prod.mk.injEq, Except.ok.injEq] at h
    obtain ⟨h1, -⟩ := h
    subst h1
    simp [hd]
  · cases ht : truthyOptStr d.stripe_coupon_id
    · rcases hp : couponParamsFor order d with e | p
      · rw [discountStep_params_raise gw order d e hd ht hp] at h
        simp at h
      · rcases hc : gw.createCoupon p with e | cid
        · rw [discountStep_raises gw order d p e hd ht hp hc] at h
          simp at h
        · rw [discountStep_creates gw order d p cid hd ht hp hc] at h
          simp only [Prod.mk.injEq, Except.ok.injEq] at h
          obtain ⟨h1, -⟩ := h
          subst h1
          simp [hd]
    · rw [discountStep_materialized gw order d hd ht] at h
      simp only [Prod.mk.injEq, Except.ok.injEq] at h
      obtain ⟨h1, -⟩ := h
      subst h1
      simp [hd]

/-- The tax block only ever writes the tax's `stripe_tax_rate_id`. -/
theorem taxStep_ok_frame (gw : StripeGateway) (order o1 : Order)
    (c : List StripeCall) (h : taxStep gw order = (.ok o1, c)) :
    o1.id = order.id ∧ o1.items = order.items
      ∧ o1.discount = order.discount ∧ o1.paid = order.paid
      ∧ (order.tax = none → o1.tax = none)
      ∧ (∀ t, order.tax = some t →
          ∃ t', o1.tax = some t' ∧ t'.name = t.name
            ∧ t'.percentage = t.percentage ∧ t'.inclusive = t.inclusive) := by
  rcases hx : order.tax with _ | t
  · rw [taxStep_no_tax gw order hx] at h
    simp only [Prod.mk.injEq, Except.ok.injEq] at h
    obtain ⟨h1, -⟩ := h
    subst h1
    simp [hx]
  · cases ht : truthyOptStr t.stripe_tax_rate_id
    · rcases hc : gw.createTaxRate ⟨t.name, t.percentage, t.inclusive⟩ with e | tid
      · rw [taxStep_raises gw order t e hx ht hc] at h
        simp at h
      · rw [taxStep_creates gw order t tid hx ht hc] at h
        simp only [Prod.mk.injEq, Except.ok.injEq] at h
        obtain ⟨h1, -⟩ := h
        subst h1
        simp [hx]
    · rw [taxStep_materialized gw order t hx ht] at h
      simp only [Prod.mk.injEq, Except.ok.injEq] at h
      obtain ⟨h1, -⟩ := h
      subst h1
      simp [hx]

/-- The discount block performs no tax-rate and no session call, and
at most one coupon call. -/
theorem discountStep_calls (gw : StripeGateway) (order : Order) :
    taxRateCalls (discountStep gw order).2 = []
      ∧ sessionCalls (discountStep gw order).2 = []
      ∧ (couponCalls (discountStep gw order).2).length ≤ 1 := by
  unfold discountStep
  rcases hd : order.discount with _ | d
  · simp [taxRateCalls, sessionCalls, couponCalls]
  · by_cases ht : truthyOptStr d.stripe_coupon_id <;> simp only [ht]
    · simp [taxRateCalls, sessionCalls, couponCalls]
    · rcases hp : couponParamsFor order d with e | p
      · simp [taxRateCalls, sessionCalls, couponCalls]
      · rcases hc : gw.createCoupon p with e | cid <;>
          simp [hc, taxRateCalls, sessionCalls, couponCalls]

/-- The tax block performs no coupon and no session call, and at most
one tax-rate call. -/
theorem taxStep_calls (gw : StripeGateway) (order : Order) :
    couponCalls (taxStep gw order).2 = []
      ∧ sessionCalls (taxStep gw order).2 = []
      ∧ (taxRateCalls (taxStep gw order).2).length ≤ 1 := by
  unfold taxStep
  rcases hx : order.tax with _ | t
  · simp [taxRateCalls, sessionCalls, couponCalls]
  · by_cases ht : truthyOptStr t.stripe_tax_rate_id <;> simp only [ht]
    · simp [taxRateCalls, sessionCalls, couponCalls]
    · rcases hc : gw.createTaxRate ⟨t.name, t.percentage, t.inclusive⟩ with e | tid <;>
        simp [hc, taxRateCalls, sessionCalls, couponCalls]

/-- Function `lineItemFor` reads only the tax of the order it is given. -/
theorem lineItemFor_tax_congr (o o' : Order) (h : o.tax = o'.tax)
    (item : Item) : lineItemFor o item = lineItemFor o' item := by
  unfold lineItemFor
  rw [h]

/-- Function `orderSessionParams` reads only the items and tax of the order. -/
theorem orderSessionParams_congr (origin : String) (i : Nat) (o o' : Order)
    (hi : o.items = o'.items) (ht : o.tax = o'.tax) :
    orderSessionParams origin i o = orderSessionParams origin i o' := by
  have hf : lineItemFor o = lineItemFor o' :=
    funext fun item => lineItemFor_tax_congr o o' ht item
  unfold orderSessionParams
  rw [hi, hf]

/-- Reduction of the order-checkout body when the discount block
raises. -/
theorem buy_order_core_discount_err (gw : StripeGateway) (origin : String)
    (order : Order) (e : PyExc) (c1 : List StripeCall)
    (h1 : discountStep gw order = (.error e, c1)) :
    buy_order_core gw origin order = (.error e, order, c1) := by
  simp [buy_order_core, h1]

/-- Reduction of the order-checkout body when the discount block
succeeds and the tax block raises. -/
theorem buy_order_core_tax_err (gw : StripeGateway) (origin : String)
    (order o1 : Order) (e : PyExc) (c1 c2 : List StripeCall)
    (h1 : discountStep gw order = (.ok o1, c1))
    (h2 : taxStep gw o1 = (.error e, c2)) :
    buy_order_core gw origin order = (.error e, o1, c1 ++ c2) := by
  simp [buy_order_core, h1, h2]

/-- Reduction of the order-checkout body when both blocks succeed and
the session call raises: a 400 response with the embedded message. -/
theorem buy_order_core_session_err (gw : StripeGateway) (origin : String)
    (order o1 o2 : Order) (e : PyExc) (c1 c2 : List StripeCall)
    (h1 : discountStep gw order = (.ok o1, c1))
    (h2 : taxStep gw o1 = (.ok o2, c2))
    (h3 : gw.createSession (orderSessionParams origin order.id o2) = .error e) :
    buy_order_core gw origin order
      = (.ok (.badRequest ("Stripe error: " ++ e.str)), o2,
         c1 ++ c2 ++ [.sessionCreate (orderSessionParams origin order.id o2)]) := by
  simp only [buy_order_core, h1, h2, orderSessionParams] at h3 ⊢
  rw [h3]

/-- Reduction of the order-checkout body when everything succeeds. -/
theorem buy_order_core_session_ok (gw : StripeGateway) (origin : String)
    (order o1 o2 : Order) (sid : String) (c1 c2 : List StripeCall)
    (h1 : discountStep gw order = (.ok o1, c1))
    (h2 : taxStep gw o1 = (.ok o2, c2))
    (h3 : gw.createSession (orderSessionParams origin order.id o2) = .ok sid) :
    buy_order_core gw origin order
      = (.ok (.jsonSessionId sid), o2,
         c1 ++ c2 ++ [.sessionCreate (orderSessionParams origin order.id o2)]) := by
  simp only [buy_order_core, h1, h2, orderSessionParams] at h3 ⊢
  rw [h3]

/-- Function `couponCalls` distributes over append. -/
theorem couponCalls_append (a b : List StripeCall) :
    couponCalls (a ++ b) = couponCalls a ++ couponCalls b := by
  simp [couponCalls]

/-- Function `taxRateCalls` distributes over append. -/
theorem taxRateCalls_append (a b : List StripeCall) :
    taxRateCalls (a ++ b) = taxRateCalls a ++ taxRateCalls b := by
  simp [taxRateCalls]

/-- Function `sessionCalls` distributes over append. -/
theorem sessionCalls_append (a b : List StripeCall) :
    sessionCalls (a ++ b) = sessionCalls a ++ sessionCalls b := by
  simp [sessionCalls]

/-! ### Claim theorems -/

/-- C9: for an item id with no matching Item, single-item checkout
raises `Http404` — rendered as a 404 response — before any gateway
call, and likewise order checkout for an order id with no matching
Order; the lookup failure is not caught or transformed (the view's
result is the raw `Http404`). -/
theorem missing_rows_give_404 (gw : StripeGateway)
    (dbI : Nat → Option Item) (dbO : Nat → Option Order) (origin : String)
    (item_id order_id : Nat)
    (hI : dbI item_id = none) (hO : dbO order_id = none) :
    buy_view gw dbI origin item_id = (.error .http404, [])
      ∧ renderDjango (buy_view gw dbI origin item_id).1 = .notFound
      ∧ buy_order_view gw dbO origin order_id = ⟨.error .http404, none, []⟩
      ∧ renderDjango (buy_order_view gw dbO origin order_id).result = .notFound := by
  simp [buy_view, buy_order_view, hI, hO, renderDjango]

/-- C9 witness: evaluating the theorem on an empty database. -/
theorem missing_rows_give_404_spot :
    buy_view gwOk (fun _ => none) "http://x" 5 = (.error .http404, [])
      ∧ buy_order_view gwOk (fun _ => none) "http://x" 5
          = ⟨.error .http404, none, []⟩ := by
  have h := missing_rows_give_404 gwOk (fun _ => none) (fun _ => none)
    "http://x" 5 5 rfl rfl
  exact ⟨h.1, h.2.2.1⟩

/-- C10: an order with an empty item collection and an unmaterialized
discount with truthy `amount_off` makes checkout raise the
`AttributeError` from `order.items.first().currency`, with no Stripe
call at all (no coupon, no session) and no state change. -/
theorem empty_order_amount_discount_raises (gw : StripeGateway)
    (origin : String) (order : Order) (d : Discount)
    (hitems : order.items = [])
    (hd : order.discount = some d)
    (hamt : truthyOptNat d.amount_off = true)
    (hunset : truthyOptStr d.stripe_coupon_id = false) :
    buy_order_core gw origin order
      = (.error (.attributeError "NoneType object has no attribute currency"),
         order, []) := by
  have hp : couponParamsFor order d
      = .error (.attributeError "NoneType object has no attribute currency") := by
    simp [couponParamsFor, hamt, hitems]
  exact buy_order_core_discount_err gw origin order _ _
    (discountStep_params_raise gw order d _ hd hunset hp)

/-- C10 witness: the empty order with the amount discount. -/
theorem empty_order_amount_discount_raises_spot :
    buy_order_core gwOk "http://x" ordEmpty
      = (.error (.attributeError "NoneType object has no attribute currency"),
         ordEmpty, []) :=
  empty_order_amount_discount_raises gwOk "http://x" ordEmpty dAmt
    rfl rfl rfl rfl

/-- C1: when the order's discount has no remote coupon id and the
remote create succeeds, checkout performs exactly one coupon-create
call — amount-based (the discount's `amount_off`, with the currency of
the order's first item) when `amount_off` is truthy, else
percent-based with the discount's `percent_off` — as the first remote
call (hence before the session request carrying the line items), and
the returned id is persisted on the Discount record. -/
theorem checkout_creates_coupon_once (gw : StripeGateway) (origin : String)
    (order : Order) (d : Discount) (p : CouponParams) (cid : String)
    (hd : order.discount = some d)
    (hunset : truthyOptStr d.stripe_coupon_id = false)
    (hp : couponParamsFor order d = .ok p)
    (hc : gw.createCoupon p = .ok cid) :
    (p.duration = "once"
      ∧ (truthyOptNat d.amount_off = true →
           p.amount_off = d.amount_off ∧ p.percent_off = none
             ∧ p.currency = order.items.head?.map Item.currency)
      ∧ (truthyOptNat d.amount_off = false →
           p.amount_off = none ∧ p.percent_off = d.percent_off
             ∧ p.currency = none))
    ∧ couponCalls (buy_order_core gw origin order).2.2 = [p]
    ∧ (buy_order_core gw origin order).2.2.head? = some (.couponCreate p)
    ∧ (buy_order_core gw origin order).2.1.discount
        = some { d with stripe_coupon_id := some cid } := by
  have hshape : p.duration = "once"
      ∧ (truthyOptNat d.amount_off = true →
           p.amount_off = d.amount_off ∧ p.percent_off = none
             ∧ p.currency = order.items.head?.map Item.currency)
      ∧ (truthyOptNat d.amount_off = false →
           p.amount_off = none ∧ p.percent_off = d.percent_off
             ∧ p.currency = none) := by
    unfold couponParamsFor at hp
    cases hamt : truthyOptNat d.amount_off <;> rw [hamt] at hp <;> simp at hp
    · simp [← hp]
    · rcases hh : order.items.head? with _ | it <;> rw [hh] at hp <;> simp at hp
      simp [← hp, hh]
  have hds := discountStep_creates gw order d p cid hd hunset hp hc
  have hc2 := taxStep_calls gw
    { order with discount := some { d with stripe_coupon_id := some cid } }
  rcases h2 : taxStep gw
      { order with discount := some { d with stripe_coupon_id := some cid } }
      with ⟨r2, c2⟩
  rw [h2] at hc2
  cases r2 with
  | error e =>
    have hcore := buy_order_core_tax_err gw origin order _ e _ c2 hds h2
    rw [hcore]
    refine ⟨hshape, ?_, ?_, rfl⟩
    · rw [couponCalls_append, hc2.1]
      simp [couponCalls]
    · simp
  | ok o2 =>
    obtain ⟨-, -, hdis2, -, -, -⟩ := taxStep_ok_frame gw _ o2 c2 h2
    rcases h3 : gw.createSession (orderSessionParams origin order.id o2)
        with e | sid
    · have hcore := buy_order_core_session_err gw origin order _ o2 e _ c2 hds h2 h3
      rw [hcore]
      refine ⟨hshape, ?_, ?_, ?_⟩
      · rw [couponCalls_append, couponCalls_append, hc2.1]
        simp [couponCalls]
      · simp
      · rw [hdis2]
    · have hcore := buy_order_core_session_ok gw origin order _ o2 sid _ c2 hds h2 h3
      rw [hcore]
      refine ⟨hshape, ?_, ?_, ?_⟩
      · rw [couponCalls_append, couponCalls_append, hc2.1]
        simp [couponCalls]
      · simp
      · rw [hdis2]

/-- C1 witness: the fresh order on the all-success gateway creates the
amount-based coupon with the first item's currency and stores its id. -/
theorem checkout_creates_coupon_once_spot :
    couponCalls (buy_order_core gwOk "http://x" ordFresh).2.2
        = [⟨"once", some 3, none, some "USD"⟩]
      ∧ (buy_order_core gwOk "http://x" ordFresh).2.1.discount
        = some ⟨"d", some 3, none, some "cp_1"⟩ := by
  have h := checkout_creates_coupon_once gwOk "http://x" ordFresh dAmt
    ⟨"once", some 3, none, some "USD"⟩ "cp_1" rfl rfl rfl rfl
  exact ⟨h.2.1, h.2.2.2⟩

/-- Reduction of `buy_view` when the item exists. -/
theorem buy_view_found (gw : StripeGateway) (db : Nat → Option Item)
    (origin : String) (item_id : Nat) (item : Item)
    (hdb : db item_id = some item) :
    buy_view gw db origin item_id
      = (match gw.createSession (itemSessionParams origin item) with
         | .error e =>
             (.ok (.badRequest ("Stripe error: " ++ e.str)),
              [.sessionCreate (itemSessionParams origin item)])
         | .ok sid =>
             (.ok (.jsonSessionId sid),
              [.sessionCreate (itemSessionParams origin item)])) := by
  simp [buy_view, hdb, itemSessionParams]

/-- C7: exceptions from remote coupon or tax-rate creation are not
caught: the view's result is the raw exception (not the
"Stripe error" 400), and a coupon-creation exception aborts the
request with the failed coupon call as its only remote call — before
any tax-rate materialization and before any session request carrying
line items. -/
theorem remote_creation_exceptions_propagate (gw : StripeGateway)
    (origin : String) (order : Order) :
    (∀ d p e, order.discount = some d →
       truthyOptStr d.stripe_coupon_id = false →
       couponParamsFor order d = .ok p →
       gw.createCoupon p = .error e →
       buy_order_core gw origin order = (.error e, order, [.couponCreate p]))
    ∧ (∀ o1 c1 t e, discountStep gw order = (.ok o1, c1) →
       order.tax = some t →
       truthyOptStr t.stripe_tax_rate_id = false →
       gw.createTaxRate ⟨t.name, t.percentage, t.inclusive⟩ = .error e →
       buy_order_core gw origin order
         = (.error e, o1,
            c1 ++ [.taxRateCreate ⟨t.name, t.percentage, t.inclusive⟩])) := by
  constructor
  · intro d p e hd hunset hp hc
    exact buy_order_core_discount_err gw origin order e _
      (discountStep_raises gw order d p e hd hunset hp hc)
  · intro o1 c1 t e h1 hx ht hc
    obtain ⟨-, -, htax1, -, -, -⟩ := discountStep_ok_frame gw order o1 c1 h1
    have h2 := taxStep_raises gw o1 t e (htax1.trans hx) ht hc
    exact buy_order_core_tax_err gw origin order o1 e c1 _ h1 h2

/-- C7 witness: a failing coupon create aborts with only that call;
a failing tax-rate create propagates after the coupon call. -/
theorem remote_creation_exceptions_propagate_spot :
    buy_order_core gwCouponFail "http://x" ordFresh
        = (.error (.stripeError "cfail"), ordFresh,
           [.couponCreate ⟨"once", some 3, none, some "USD"⟩])
      ∧ buy_order_core gwTaxFail "http://x" ordFresh
        = (.error (.stripeError "tfail"),
           ⟨7, [itMug, itHat, itMug],
            some ⟨"d", some 3, none, some "cp_1"⟩, some tVat, false⟩,
           [.couponCreate ⟨"once", some 3, none, some "USD"⟩,
            .taxRateCreate ⟨"vat", 20, true⟩]) := by
  constructor
  · exact (remote_creation_exceptions_propagate gwCouponFail "http://x"
      ordFresh).1 dAmt ⟨"once", some 3, none, some "USD"⟩
      (.stripeError "cfail") rfl rfl rfl rfl
  · have h := (remote_creation_exceptions_propagate gwTaxFail "http://x"
      ordFresh).2
      ⟨7, [itMug, itHat, itMug],
       some ⟨"d", some 3, none, some "cp_1"⟩, some tVat, false⟩
      [.couponCreate ⟨"once", some 3, none, some "USD"⟩]
      tVat (.stripeError "tfail") rfl rfl rfl rfl
    simpa using h

/-- C4: for an existing item, single-item checkout submits exactly one
session request whose single line item carries the item's currency,
unit amount `price * 100`, quantity 1, the item's name and the
description truncated to 200 characters; on success the response is
the JSON session id returned by the gateway. -/
theorem buy_view_single_item (gw : StripeGateway) (db : Nat → Option Item)
    (origin : String) (item_id : Nat) (item : Item)
    (hdb : db item_id = some item) :
    sessionCalls (buy_view gw db origin item_id).2
        = [itemSessionParams origin item]
      ∧ (itemSessionParams origin item).line_items
          = [{ price_data :=
                 { currency := item.currency
                   name := item.name
                   description := item.description.take 200
                   unit_amount := item.price * 100 }
               quantity := 1
               tax_rates := none }]
      ∧ (∀ sid, gw.createSession (itemSessionParams origin item) = .ok sid →
          (buy_view gw db origin item_id).1 = .ok (.jsonSessionId sid)) := by
  rw [buy_view_found gw db origin item_id item hdb]
  rcases h3 : gw.createSession (itemSessionParams origin item) with e | sid
  · refine ⟨by simp [sessionCalls], rfl, ?_⟩
    intro sid hs
    simp at hs
  · refine ⟨by simp [sessionCalls], rfl, ?_⟩
    intro sid' hs
    simp only [Except.ok.injEq] at hs
    subst hs
    rfl

set_option maxRecDepth 8192 in
/-- C4 witness: the Mug scenario — unit amount 1000 in USD, quantity
1, and response session id "cs_1". -/
theorem buy_view_single_item_spot :
    sessionCalls (buy_view gwOk (fun _ => some itMug) "http://x" 1).2
        = [itemSessionParams "http://x" itMug]
      ∧ (buy_view gwOk (fun _ => some itMug) "http://x" 1).1
        = .ok (.jsonSessionId "cs_1")
      ∧ itemSessionParams "http://x" itMug
        = ⟨["card"], [⟨⟨"USD", "Mug", "A mug", 1000⟩, 1, none⟩], "payment",
           "http://x/success?session_id=\x7bCHECKOUT_SESSION_ID\x7d",
           "http://x/item/1/"⟩ := by
  have h := buy_view_single_item gwOk (fun _ => some itMug) "http://x" 1
    itMug rfl
  exact ⟨h.1, h.2.2 "cs_1" rfl, rfl⟩

/-- If the order's discount already has a truthy remote coupon id,
one checkout run leaves it untouched and performs no coupon call. -/
theorem core_discount_set_invariant (gw : StripeGateway) (origin : String)
    (order : Order) (d : Discount)
    (hd : order.discount = some d)
    (hset : truthyOptStr d.stripe_coupon_id = true) :
    (buy_order_core gw origin order).2.1.discount = some d
      ∧ couponCalls (buy_order_core gw origin order).2.2 = [] := by
  have h1 := discountStep_materialized gw order d hd hset
  have hc2 := taxStep_calls gw order
  rcases h2 : taxStep gw order with ⟨r2, c2⟩
  rw [h2] at hc2
  cases r2 with
  | error e =>
    rw [buy_order_core_tax_err gw origin order order e [] c2 h1 h2]
    exact ⟨hd, by rw [couponCalls_append, hc2.1]; simp [couponCalls]⟩
  | ok o2 =>
    obtain ⟨-, -, hdis2, -, -, -⟩ := taxStep_ok_frame gw order o2 c2 h2
    rcases h3 : gw.createSession (orderSessionParams origin order.id o2)
        with e | sid
    · rw [buy_order_core_session_err gw origin order order o2 e [] c2 h1 h2 h3]
      refine ⟨hdis2.trans hd, ?_⟩
      rw [couponCalls_append, couponCalls_append, hc2.1]
      simp [couponCalls]
    · rw [buy_order_core_session_ok gw origin order order o2 sid [] c2 h1 h2 h3]
      refine ⟨hdis2.trans hd, ?_⟩
      rw [couponCalls_append, couponCalls_append, hc2.1]
      simp [couponCalls]

/-- If the order's tax already has a truthy remote tax-rate id, one
checkout run leaves it untouched and performs no tax-rate call. -/
theorem core_tax_set_invariant (gw : StripeGateway) (origin : String)
    (order : Order) (t : Tax)
    (ht : order.tax = some t)
    (hset : truthyOptStr t.stripe_tax_rate_id = true) :
    (buy_order_core gw origin order).2.1.tax = some t
      ∧ taxRateCalls (buy_order_core gw origin order).2.2 = [] := by
  have hc1 := discountStep_calls gw order
  rcases h1 : discountStep gw order with ⟨r1, c1⟩
  rw [h1] at hc1
  cases r1 with
  | error e =>
    rw [buy_order_core_discount_err gw origin order e c1 h1]
    exact ⟨ht, hc1.1⟩
  | ok o1 =>
    obtain ⟨-, -, htax1, -, -, -⟩ := discountStep_ok_frame gw order o1 c1 h1
    have h2 := taxStep_materialized gw o1 t (htax1.trans ht) hset
    rcases h3 : gw.createSession (orderSessionParams origin order.id o1)
        with e | sid
    · rw [buy_order_core_session_err gw origin order o1 o1 e c1 [] h1 h2 h3]
      refine ⟨htax1.trans ht, ?_⟩
      rw [taxRateCalls_append, taxRateCalls_append, hc1.1]
      simp [taxRateCalls]
    · rw [buy_order_core_session_ok gw origin order o1 o1 sid c1 [] h1 h2 h3]
      refine ⟨htax1.trans ht, ?_⟩
      rw [taxRateCalls_append, taxRateCalls_append, hc1.1]
      simp [taxRateCalls]

/-- C2: checkout is idempotent with respect to remote materialization:
a Discount whose remote coupon id is truthy triggers no coupon call
and keeps its stored id unchanged — so a second sequential checkout on
the resulting state performs no coupon call either (zero calls across
both runs, hence at most one creation for any two sequential runs) —
and the same holds for Tax and its remote tax-rate id. -/
theorem checkout_idempotent_remote_ids (gw : StripeGateway)
    (origin : String) (order : Order) :
    (∀ d, order.discount = some d → truthyOptStr d.stripe_coupon_id = true →
       (buy_order_core gw origin order).2.1.discount = some d
         ∧ couponCalls (buy_order_core gw origin order).2.2 = []
         ∧ couponCalls
             (buy_order_core gw origin (buy_order_core gw origin order).2.1).2.2
           = [])
    ∧ (∀ t, order.tax = some t → truthyOptStr t.stripe_tax_rate_id = true →
       (buy_order_core gw origin order).2.1.tax = some t
         ∧ taxRateCalls (buy_order_core gw origin order).2.2 = []
         ∧ taxRateCalls
             (buy_order_core gw origin (buy_order_core gw origin order).2.1).2.2
           = []) := by
  constructor
  · intro d hd hset
    obtain ⟨hd', hc⟩ := core_discount_set_invariant gw origin order d hd hset
    exact ⟨hd', hc,
      (core_discount_set_invariant gw origin _ d hd' hset).2⟩
  · intro t ht hset
    obtain ⟨ht', hc⟩ := core_tax_set_invariant gw origin order t ht hset
    exact ⟨ht', hc,
      (core_tax_set_invariant gw origin _ t ht' hset).2⟩

/-- C2 witness: the fully materialized order on the all-success
gateway — no coupon and no tax-rate call in either of two runs. -/
theorem checkout_idempotent_remote_ids_spot :
    (buy_order_core gwOk "http://x" ordDone).2.1.discount = some dDone
      ∧ couponCalls (buy_order_core gwOk "http://x" ordDone).2.2 = []
      ∧ couponCalls
          (buy_order_core gwOk "http://x"
            (buy_order_core gwOk "http://x" ordDone).2.1).2.2 = []
      ∧ (buy_order_core gwOk "http://x" ordDone).2.1.tax = some tDone
      ∧ taxRateCalls (buy_order_core gwOk "http://x" ordDone).2.2 = [] := by
  have h := checkout_idempotent_remote_ids gwOk "http://x" ordDone
  obtain ⟨h1, h2, h3⟩ := h.1 dDone rfl rfl
  obtain ⟨h4, h5, -⟩ := h.2 tDone rfl rfl
  exact ⟨h1, h2, h3, h4, h5⟩

/-- When both materialization blocks succeed, the final persisted
order state is the post-tax-step order, whatever the session call
returns. -/
theorem buy_order_core_final_of_steps (gw : StripeGateway) (origin : String)
    (order o1 o2 : Order) (c1 c2 : List StripeCall)
    (h1 : discountStep gw order = (.ok o1, c1))
    (h2 : taxStep gw o1 = (.ok o2, c2)) :
    (buy_order_core gw origin order).2.1 = o2 := by
  rcases h3 : gw.createSession (orderSessionParams origin order.id o2) with e | sid
  · rw [buy_order_core_session_err gw origin order o1 o2 e c1 c2 h1 h2 h3]
  · rw [buy_order_core_session_ok gw origin order o1 o2 sid c1 c2 h1 h2 h3]

/-- The discount block never reads the session-create operation. -/
theorem discountStep_session_irrel (gw : StripeGateway)
    (f : SessionParams → Except PyExc String) (order : Order) :
    discountStep { gw with createSession := f } order
      = discountStep gw order := rfl

/-- The tax block never reads the session-create operation. -/
theorem taxStep_session_irrel (gw : StripeGateway)
    (f : SessionParams → Except PyExc String) (order : Order) :
    taxStep { gw with createSession := f } order = taxStep gw order := rfl

/-- C8: the write footprint of order checkout is limited to the
discount's remote coupon id and the tax's remote tax-rate id — the
order's id, item list (hence every Item) and `paid` flag are
unchanged, the discount and tax keep every other field, and the
presence of a discount/tax is unchanged; moreover the persisted final
state does not depend on the session-create operation at all, so an id
persisted before a failed session call stays persisted (no rollback). -/
theorem checkout_write_footprint (gw : StripeGateway) (origin : String)
    (order : Order) :
    ((buy_order_core gw origin order).2.1).id = order.id
    ∧ ((buy_order_core gw origin order).2.1).items = order.items
    ∧ ((buy_order_core gw origin order).2.1).paid = order.paid
    ∧ (order.discount = none →
        ((buy_order_core gw origin order).2.1).discount = none)
    ∧ (∀ d, order.discount = some d →
        ∃ d', ((buy_order_core gw origin order).2.1).discount = some d'
          ∧ d'.name = d.name ∧ d'.amount_off = d.amount_off
          ∧ d'.percent_off = d.percent_off)
    ∧ (order.tax = none → ((buy_order_core gw origin order).2.1).tax = none)
    ∧ (∀ t, order.tax = some t →
        ∃ t', ((buy_order_core gw origin order).2.1).tax = some t'
          ∧ t'.name = t.name ∧ t'.percentage = t.percentage
          ∧ t'.inclusive = t.inclusive)
    ∧ (∀ f, (buy_order_core { gw with createSession := f } origin order).2.1
        = (buy_order_core gw origin order).2.1) := by
  rcases h1 : discountStep gw order with ⟨r1, c1⟩
  cases r1 with
  | error e =>
    have hcore := buy_order_core_discount_err gw origin order e c1 h1
    rw [hcore]
    refine ⟨rfl, rfl, rfl, fun h => h, fun d hd => ⟨d, hd, rfl, rfl, rfl⟩,
      fun h => h, fun t ht => ⟨t, ht, rfl, rfl, rfl⟩, ?_⟩
    intro f
    rw [buy_order_core_discount_err { gw with createSession := f } origin
      order e c1 ((discountStep_session_irrel gw f order).trans h1)]
  | ok o1 =>
    obtain ⟨hid1, hit1, htax1, hpaid1, hdn1, hds1⟩ :=
      discountStep_ok_frame gw order o1 c1 h1
    rcases h2 : taxStep gw o1 with ⟨r2, c2⟩
    cases r2 with
    | error e =>
      have hcore := buy_order_core_tax_err gw origin order o1 e c1 c2 h1 h2
      rw [hcore]
      refine ⟨hid1, hit1, hpaid1, hdn1, hds1, ?_, ?_, ?_⟩
      · intro h
        rw [htax1, h]
      · intro t ht
        exact ⟨t, htax1.trans ht, rfl, rfl, rfl⟩
      · intro f
        rw [buy_order_core_tax_err { gw with createSession := f } origin
          order o1 e c1 c2 ((discountStep_session_irrel gw f order).trans h1)
          ((taxStep_session_irrel gw f o1).trans h2)]
    | ok o2 =>
      obtain ⟨hid2, hit2, hdis2, hpaid2, htn2, hts2⟩ :=
        taxStep_ok_frame gw o1 o2 c2 h2
      have hfin := buy_order_core_final_of_steps gw origin order o1 o2 c1 c2 h1 h2
      rw [hfin]
      refine ⟨hid2.trans hid1, hit2.trans hit1, hpaid2.trans hpaid1,
        ?_, ?_, ?_, ?_, ?_⟩
      · intro h
        rw [hdis2, hdn1 h]
      · intro d hd
        obtain ⟨d', hd', hn, ha, hp⟩ := hds1 d hd
        exact ⟨d', hdis2.trans hd', hn, ha, hp⟩
      · intro h
        exact htn2 (htax1.trans h)
      · intro t ht
        exact hts2 t (htax1.trans ht)
      · intro f
        rw [buy_order_core_final_of_steps { gw with createSession := f } origin
          order o1 o2 c1 c2 ((discountStep_session_irrel gw f order).trans h1)
          ((taxStep_session_irrel gw f o1).trans h2)]

/-- C8 witness: the fresh order on the session-failing gateway — the
paid flag, id and items are unchanged and the persisted state equals
the one obtained with the all-success gateway. -/
theorem checkout_write_footprint_spot :
    ((buy_order_core gwSessFail "http://x" ordFresh).2.1).paid = ordFresh.paid
      ∧ ((buy_order_core gwSessFail "http://x" ordFresh).2.1).items
          = ordFresh.items
      ∧ (buy_order_core gwOk "http://x" ordFresh).2.1
          = (buy_order_core gwSessFail "http://x" ordFresh).2.1 := by
  have h := checkout_write_footprint gwSessFail "http://x" ordFresh
  refine ⟨h.2.2.1, h.2.1, ?_⟩
  have h8 := h.2.2.2.2.2.2.2 (fun _ => .ok "cs_1")
  exact h8

/-- Field values of every line item the order loop builds: quantity 1,
the item's currency, name, full description, and `price * 100`. -/
theorem lineItemFor_fields (o : Order) (item : Item) :
    (lineItemFor o item).quantity = 1
    ∧ (lineItemFor o item).price_data.currency = item.currency
    ∧ (lineItemFor o item).price_data.unit_amount = item.price * 100
    ∧ (lineItemFor o item).price_data.name = item.name
    ∧ (lineItemFor o item).price_data.description = item.description := by
  rcases hx : o.tax with _ | t <;> simp [lineItemFor, hx]
  rcases hid : t.stripe_tax_rate_id with _ | tid <;> simp [hid]
  by_cases hb : tid = "" <;> simp [hb]

/-- When the order's tax is materialized at line-item-assembly time,
its remote id is attached to the line item. -/
theorem lineItemFor_tax_attached (o : Order) (item : Item) (t : Tax)
    (tid : String) (hx : o.tax = some t)
    (hid : t.stripe_tax_rate_id = some tid) (hne : tid ≠ "") :
    (lineItemFor o item).tax_rates = some [tid] := by
  simp [lineItemFor, hx, hid, hne]

/-- Checkout never changes the order's item collection. -/
theorem core_items_frame (gw : StripeGateway) (origin : String)
    (order : Order) :
    (buy_order_core gw origin order).2.1.items = order.items := by
  rcases h1 : discountStep gw order with ⟨r1, c1⟩
  cases r1 with
  | error e => rw [buy_order_core_discount_err gw origin order e c1 h1]
  | ok o1 =>
    obtain ⟨-, hit1, -, -, -, -⟩ := discountStep_ok_frame gw order o1 c1 h1
    rcases h2 : taxStep gw o1 with ⟨r2, c2⟩
    cases r2 with
    | error e =>
      rw [buy_order_core_tax_err gw origin order o1 e c1 c2 h1 h2]
      exact hit1
    | ok o2 =>
      obtain ⟨-, hit2, -, -, -, -⟩ := taxStep_ok_frame gw o1 o2 c2 h2
      rw [buy_order_core_final_of_steps gw origin order o1 o2 c1 c2 h1 h2]
      exact hit2.trans hit1

/-- Session-call shape of one order checkout: either the run aborted
with an uncaught exception and sent no session request, or it sent
exactly one — the five-kwarg request built from the final order state —
whose failure yields the "Stripe error" 400 and whose success yields
the JSON session id. -/
theorem core_sessions (gw : StripeGateway) (origin : String) (order : Order) :
    (sessionCalls (buy_order_core gw origin order).2.2 = []
       ∧ ∃ e, (buy_order_core gw origin order).1 = .error e)
    ∨ (sessionCalls (buy_order_core gw origin order).2.2
         = [orderSessionParams origin order.id
              (buy_order_core gw origin order).2.1]
       ∧ (∀ e, gw.createSession
             (orderSessionParams origin order.id
               (buy_order_core gw origin order).2.1) = .error e →
           (buy_order_core gw origin order).1
             = .ok (.badRequest ("Stripe error: " ++ e.str)))
       ∧ (∀ sid, gw.createSession
             (orderSessionParams origin order.id
               (buy_order_core gw origin order).2.1) = .ok sid →
           (buy_order_core gw origin order).1 = .ok (.jsonSessionId sid))) := by
  rcases h1 : discountStep gw order with ⟨r1, c1⟩
  have hc1 := discountStep_calls gw order
  rw [h1] at hc1
  cases r1 with
  | error e =>
    rw [buy_order_core_discount_err gw origin order e c1 h1]
    exact .inl ⟨hc1.2.1, e, rfl⟩
  | ok o1 =>
    rcases h2 : taxStep gw o1 with ⟨r2, c2⟩
    have hc2 := taxStep_calls gw o1
    rw [h2] at hc2
    cases r2 with
    | error e =>
      rw [buy_order_core_tax_err gw origin order o1 e c1 c2 h1 h2]
      refine .inl ⟨?_, e, rfl⟩
      rw [sessionCalls_append, hc1.2.1, hc2.2.1]
      rfl
    | ok o2 =>
      rcases h3 : gw.createSession (orderSessionParams origin order.id o2)
          with e | sid
      · rw [buy_order_core_session_err gw origin order o1 o2 e c1 c2 h1 h2 h3]
        dsimp only
        refine .inr ⟨?_, ?_, ?_⟩
        · rw [sessionCalls_append, sessionCalls_append, hc1.2.1, hc2.2.1]
          simp [sessionCalls]
        · intro e' he'
          rw [h3] at he'
          injection he' with h
          subst h
          rfl
        · intro sid hs
          rw [h3] at hs
          simp at hs
      · rw [buy_order_core_session_ok gw origin order o1 o2 sid c1 c2 h1 h2 h3]
        dsimp only
        refine .inr ⟨?_, ?_, ?_⟩
        · rw [sessionCalls_append, sessionCalls_append, hc1.2.1, hc2.2.1]
          simp [sessionCalls]
        · intro e' he'
          rw [h3] at he'
          simp at he'
        · intro sid' hs
          rw [h3] at hs
          injection hs with h
          subst h
          rfl

/-- Reduction of `buy_order_view` when the order exists. -/
theorem buy_order_view_found (gw : StripeGateway) (db : Nat → Option Order)
    (origin : String) (order_id : Nat) (order : Order)
    (hdb : db order_id = some order) :
    buy_order_view gw db origin order_id
      = ⟨(buy_order_core gw origin order).1,
         some (buy_order_core gw origin order).2.1,
         (buy_order_core gw origin order).2.2⟩ := by
  rcases hk : buy_order_core gw origin order with ⟨r, o, cs⟩
  simp [buy_order_view, hdb, hk]

/-- C3: every session request of order checkout carries exactly one
line item per item occurrence in the order's item collection (no
quantity aggregation: pairwise, each line item has quantity 1, the
item's currency and unit amount `price * 100`), and when the order's
tax is materialized at assembly time its remote id is attached to
every line item. -/
theorem checkout_line_items_per_item (gw : StripeGateway) (origin : String)
    (order : Order) (p : SessionParams)
    (hp : p ∈ sessionCalls (buy_order_core gw origin order).2.2) :
    p.line_items.length = order.items.length
    ∧ List.Forall₂ (fun (item : Item) (li : LineItem) =>
        li.quantity = 1
        ∧ li.price_data.currency = item.currency
        ∧ li.price_data.unit_amount = item.price * 100
        ∧ ∀ t tid, (buy_order_core gw origin order).2.1.tax = some t →
            t.stripe_tax_rate_id = some tid → tid ≠ "" →
            li.tax_rates = some [tid])
      order.items p.line_items := by
  rcases core_sessions gw origin order with ⟨hcalls, -⟩ | ⟨hcalls, -, -⟩
  · rw [hcalls] at hp
    simp at hp
  · rw [hcalls] at hp
    simp only [List.mem_singleton] at hp
    subst hp
    have hi : (buy_order_core gw origin order).2.1.items = order.items :=
      core_items_frame gw origin order
    constructor
    · simp only [orderSessionParams, List.length_map, hi]
    · simp only [orderSessionParams]
      rw [hi, List.forall₂_map_right_iff]
      rw [List.forall₂_same]
      intro item hmem
      obtain ⟨hq, hc, hu, -, -⟩ :=
        lineItemFor_fields (buy_order_core gw origin order).2.1 item
      refine ⟨hq, hc, hu, ?_⟩
      intro t tid hx hid hne
      exact lineItemFor_tax_attached _ item t tid hx hid hne

set_option maxRecDepth 8192 in
/-- C3 witness: the fresh three-occurrence order (Mug, Hat, Mug)
produces three line items. -/
theorem checkout_line_items_per_item_spot :
    (orderSessionParams "http://x" 7
        (buy_order_core gwOk "http://x" ordFresh).2.1).line_items.length
      = ordFresh.items.length := by
  have h := checkout_line_items_per_item gwOk "http://x" ordFresh
    (orderSessionParams "http://x" 7
      (buy_order_core gwOk "http://x" ordFresh).2.1)
    (List.Mem.head _)
  exact h.1

/-- C6: for both views, at most one session-create call happens per
request, and for any session request actually sent: a gateway
exception is caught and turned into the 400 response
`"Stripe error: " ++ str(e)` (no retry — the single call is all there
is), while success yields the JSON session id. -/
theorem stripe_errors_caught_only_at_session (gw : StripeGateway)
    (dbI : Nat → Option Item) (dbO : Nat → Option Order) (origin : String)
    (item_id order_id : Nat) :
    (sessionCalls (buy_view gw dbI origin item_id).2).length ≤ 1
    ∧ (sessionCalls (buy_order_view gw dbO origin order_id).calls).length ≤ 1
    ∧ (∀ p, p ∈ sessionCalls (buy_view gw dbI origin item_id).2 →
        (∀ e, gw.createSession p = .error e →
           (buy_view gw dbI origin item_id).1
             = .ok (.badRequest ("Stripe error: " ++ e.str)))
        ∧ (∀ sid, gw.createSession p = .ok sid →
           (buy_view gw dbI origin item_id).1 = .ok (.jsonSessionId sid)))
    ∧ (∀ p, p ∈ sessionCalls (buy_order_view gw dbO origin order_id).calls →
        (∀ e, gw.createSession p = .error e →
           (buy_order_view gw dbO origin order_id).result
             = .ok (.badRequest ("Stripe error: " ++ e.str)))
        ∧ (∀ sid, gw.createSession p = .ok sid →
           (buy_order_view gw dbO origin order_id).result
             = .ok (.jsonSessionId sid))) := by
  have hbv : (sessionCalls (buy_view gw dbI origin item_id).2).length ≤ 1
      ∧ (∀ p, p ∈ sessionCalls (buy_view gw dbI origin item_id).2 →
          (∀ e, gw.createSession p = .error e →
             (buy_view gw dbI origin item_id).1
               = .ok (.badRequest ("Stripe error: " ++ e.str)))
          ∧ (∀ sid, gw.createSession p = .ok sid →
             (buy_view gw dbI origin item_id).1 = .ok (.jsonSessionId sid))) := by
    rcases hI : dbI item_id with _ | item
    · have : buy_view gw dbI origin item_id = (.error .http404, []) := by
        simp [buy_view, hI]
      rw [this]
      constructor
      · simp [sessionCalls]
      · intro p hp
        simp [sessionCalls] at hp
    · rw [buy_view_found gw dbI origin item_id item hI]
      rcases h3 : gw.createSession (itemSessionParams origin item) with e | sid
      · refine ⟨by simp [sessionCalls], ?_⟩
        intro p hp
        simp only [sessionCalls, List.filterMap_cons, List.filterMap_nil] at hp
        simp at hp
        subst hp
        constructor
        · intro e' he'
          rw [h3] at he'
          injection he' with h
          subst h
          rfl
        · intro sid hs
          rw [h3] at hs
          simp at hs
      · refine ⟨by simp [sessionCalls], ?_⟩
        intro p hp
        simp only [sessionCalls, List.filterMap_cons, List.filterMap_nil] at hp
        simp at hp
        subst hp
        constructor
        · intro e' he'
          rw [h3] at he'
          simp at he'
        · intro sid' hs
          rw [h3] at hs
          injection hs with h
          subst h
          rfl
  have hov : (sessionCalls (buy_order_view gw dbO origin order_id).calls).length ≤ 1
      ∧ (∀ p, p ∈ sessionCalls (buy_order_view gw dbO origin order_id).calls →
          (∀ e, gw.createSession p = .error e →
             (buy_order_view gw dbO origin order_id).result
               = .ok (.badRequest ("Stripe error: " ++ e.str)))
          ∧ (∀ sid, gw.createSession p = .ok sid →
             (buy_order_view gw dbO origin order_id).result
               = .ok (.jsonSessionId sid))) := by
    rcases hO : dbO order_id with _ | order
    · have : buy_order_view gw dbO origin order_id = ⟨.error .http404, none, []⟩ := by
        simp [buy_order_view, hO]
      rw [this]
      constructor
      · simp [sessionCalls]
      · intro p hp
        simp [sessionCalls] at hp
    · rw [buy_order_view_found gw dbO origin order_id order hO]
      dsimp only
      rcases core_sessions gw origin order with ⟨hcalls, -⟩ | ⟨hcalls, herr, hok⟩
      · rw [hcalls]
        constructor
        · simp
        · intro p hp
          simp at hp
      · rw [hcalls]
        constructor
        · simp
        · intro p hp
          simp only [List.mem_singleton] at hp
          subst hp
          exact ⟨herr, hok⟩
  exact ⟨hbv.1, hov.1, hbv.2, hov.2⟩

set_option maxRecDepth 8192 in
/-- C6 witness: a failing session create yields the 400 with the
embedded message for both views. -/
theorem stripe_errors_caught_only_at_session_spot :
    (buy_view gwSessFail (fun _ => some itMug) "http://x" 1).1
        = .ok (.badRequest ("Stripe error: " ++ (PyExc.stripeError "boom").str))
      ∧ (buy_order_view gwSessFail (fun _ => some ordDone) "http://x" 9).result
        = .ok (.badRequest ("Stripe error: " ++ (PyExc.stripeError "boom").str)) := by
  have h := stripe_errors_caught_only_at_session gwSessFail
    (fun _ => some itMug) (fun _ => some ordDone) "http://x" 1 9
  constructor
  · exact (h.2.2.1 (itemSessionParams "http://x" itMug)
      (List.Mem.head _)).1 (.stripeError "boom") rfl
  · exact (h.2.2.2 (orderSessionParams "http://x" 9
      (buy_order_core gwSessFail "http://x" ordDone).2.1)
      (List.Mem.head _)).1 (.stripeError "boom") rfl

/-- Two orders that agree on id, items and tax and whose discounts are
both materialized (with possibly different remote coupon ids) perform
the same list of Stripe calls: no call — in particular no session
request — ever depends on the stored coupon id. -/
theorem core_calls_discount_id_irrel (gw : StripeGateway) (origin : String)
    (A B : Order)
    (hid : A.id = B.id) (hit : A.items = B.items) (htx : A.tax = B.tax)
    (dA dB : Discount)
    (hdA : A.discount = some dA) (hsA : truthyOptStr dA.stripe_coupon_id = true)
    (hdB : B.discount = some dB) (hsB : truthyOptStr dB.stripe_coupon_id = true) :
    (buy_order_core gw origin A).2.2 = (buy_order_core gw origin B).2.2 := by
  have h1A := discountStep_materialized gw A dA hdA hsA
  have h1B := discountStep_materialized gw B dB hdB hsB
  rcases hx : A.tax with _ | t
  · have hxB : B.tax = none := htx.symm.trans hx
    have h2A := taxStep_no_tax gw A hx
    have h2B := taxStep_no_tax gw B hxB
    have hps : orderSessionParams origin A.id A
        = orderSessionParams origin B.id B := by
      rw [hid]
      exact orderSessionParams_congr origin B.id A B hit htx
    rcases h3 : gw.createSession (orderSessionParams origin A.id A) with e | sid
    · rw [buy_order_core_session_err gw origin A A A e [] [] h1A h2A h3,
        buy_order_core_session_err gw origin B B B e [] [] h1B h2B (hps ▸ h3)]
      rw [hps]
    · rw [buy_order_core_session_ok gw origin A A A sid [] [] h1A h2A h3,
        buy_order_core_session_ok gw origin B B B sid [] [] h1B h2B (hps ▸ h3)]
      rw [hps]
  · have hxB : B.tax = some t := htx.symm.trans hx
    cases hset : truthyOptStr t.stripe_tax_rate_id
    · rcases hc : gw.createTaxRate ⟨t.name, t.percentage, t.inclusive⟩
          with e | tid
      · have h2A := taxStep_raises gw A t e hx hset hc
        have h2B := taxStep_raises gw B t e hxB hset hc
        rw [buy_order_core_tax_err gw origin A A e [] _ h1A h2A,
          buy_order_core_tax_err gw origin B B e [] _ h1B h2B]
      · have h2A := taxStep_creates gw A t tid hx hset hc
        have h2B := taxStep_creates gw B t tid hxB hset hc
        have hps : orderSessionParams origin A.id
              { A with tax := some { t with stripe_tax_rate_id := some tid } }
            = orderSessionParams origin B.id
              { B with tax := some { t with stripe_tax_rate_id := some tid } } := by
          rw [hid]
          exact orderSessionParams_congr origin B.id _ _ hit rfl
        rcases h3 : gw.createSession (orderSessionParams origin A.id
            { A with tax := some { t with stripe_tax_rate_id := some tid } })
            with e | sid
        · rw [buy_order_core_session_err gw origin A A _ e [] _ h1A h2A h3,
            buy_order_core_session_err gw origin B B _ e [] _ h1B h2B (hps ▸ h3)]
          rw [hps]
        · rw [buy_order_core_session_ok gw origin A A _ sid [] _ h1A h2A h3,
            buy_order_core_session_ok gw origin B B _ sid [] _ h1B h2B (hps ▸ h3)]
          rw [hps]
    · have h2A := taxStep_materialized gw A t hx hset
      have h2B := taxStep_materialized gw B t hxB hset
      have hps : orderSessionParams origin A.id A
          = orderSessionParams origin B.id B := by
        rw [hid]
        exact orderSessionParams_congr origin B.id A B hit htx
      rcases h3 : gw.createSession (orderSessionParams origin A.id A) with e | sid
      · rw [buy_order_core_session_err gw origin A A A e [] [] h1A h2A h3,
          buy_order_core_session_err gw origin B B B e [] [] h1B h2B (hps ▸ h3)]
        rw [hps]
      · rw [buy_order_core_session_ok gw origin A A A sid [] [] h1A h2A h3,
          buy_order_core_session_ok gw origin B B B sid [] [] h1B h2B (hps ▸ h3)]
        rw [hps]

/-- C5: the session-creation request never includes the discount's
materialized remote coupon id or any discount/coupon parameter: the
whole Stripe call sequence is unchanged when the stored coupon id is
replaced by any other (materialized) id, and every session request
sent is exactly the five-kwarg `orderSessionParams` — payment method
types `["card"]`, the assembled line items, mode `"payment"`, and the
success and cancel URLs. -/
theorem session_request_never_carries_coupon (gw : StripeGateway)
    (origin : String) (order : Order) (d : Discount) (cid cid' : String)
    (h1 : cid ≠ "") (h2 : cid' ≠ "") :
    (buy_order_core gw origin
        { order with discount := some { d with stripe_coupon_id := some cid } }).2.2
      = (buy_order_core gw origin
        { order with discount := some { d with stripe_coupon_id := some cid' } }).2.2
    ∧ ∀ p ∈ sessionCalls (buy_order_core gw origin order).2.2,
        p.payment_method_types = ["card"] ∧ p.mode = "payment"
        ∧ p.success_url = successUrlOf origin
        ∧ p.cancel_url = origin ++ "/order/" ++ toString order.id ++ "/"
        ∧ p = orderSessionParams origin order.id
                (buy_order_core gw origin order).2.1 := by
  constructor
  · exact core_calls_discount_id_irrel gw origin _ _ rfl rfl rfl _ _ rfl
      (by simp [truthyOptStr, h1]) rfl (by simp [truthyOptStr, h2])
  · intro p hp
    rcases core_sessions gw origin order with ⟨hcalls, -⟩ | ⟨hcalls, -, -⟩
    · rw [hcalls] at hp
      simp at hp
    · rw [hcalls] at hp
      simp only [List.mem_singleton] at hp
      subst hp
      exact ⟨rfl, rfl, rfl, rfl, rfl⟩

/-- C5 witness: swapping the materialized coupon id leaves the whole
call sequence of the fresh order's checkout unchanged. -/
theorem session_request_never_carries_coupon_spot :
    (buy_order_core gwOk "http://x"
        { ordFresh with discount := some { dAmt with stripe_coupon_id := some "cpA" } }).2.2
      = (buy_order_core gwOk "http://x"
        { ordFresh with discount := some { dAmt with stripe_coupon_id := some "cpB" } }).2.2 :=
  (session_request_never_carries_coupon gwOk "http://x" ordFresh dAmt
    "cpA" "cpB" (by decide) (by decide)).1
